import Mathlib

/-!
Verification development for the process-inbound-email repository.

Part 1 embeds the MIME email body extraction (`ParseEmailBody` in the
`main` package): messages are modelled at the level the Go code sees them
after the standard-library framing calls (`mail.ReadMessage`,
`mime.ParseMediaType`, `multipart.Reader`), with Boolean flags standing
for the success of those collaborator calls.  The transfer-encoding
decoders follow Go's `encoding/base64` (std encoding, `\r`/`\n` ignored,
strict padding) and `mime/quotedprintable` (hex escapes, lowercase hex
accepted, soft line breaks).

Part 2 embeds the OpenAI assistant client (`openaiassistant` package):
the HTTP transport is an oracle trace of outcomes consumed one per
request, and every function additionally returns the list of log lines
emitted through `logError`, so that the `silenceErrors` flag can be
reasoned about.
-/

namespace EmailParse

/-- Value of a base64 alphabet character (Go std encoding), none when the
character is not in the alphabet. -/
def b64Index (c : Nat) : Option Nat :=
  if 65 ≤ c ∧ c ≤ 90 then some (c - 65)
  else if 97 ≤ c ∧ c ≤ 122 then some (c - 97 + 26)
  else if 48 ≤ c ∧ c ≤ 57 then some (c - 48 + 52)
  else if c = 43 then some 62
  else if c = 47 then some 63
  else none

/-- Decode base64 input four characters at a time, as Go's streaming
std-encoding decoder does.  Returns the bytes decoded before any error
together with a success flag: invalid characters, truncated quanta and
data after padding all fail, mirroring `encoding/base64` with `=`
padding required. -/
def base64Quanta : List Nat → List Nat × Bool
  | [] => ([], true)
  | c0 :: c1 :: c2 :: c3 :: rest =>
    match b64Index c0, b64Index c1 with
    | some v0, some v1 =>
      if c2 = 61 ∧ c3 = 61 then
        ([(v0 * 4 + v1 / 16) % 256], rest = [])
      else
        match b64Index c2 with
        | some v2 =>
          if c3 = 61 then
            ([(v0 * 4 + v1 / 16) % 256, (v1 % 16) * 16 + v2 / 4], rest = [])
          else
            match b64Index c3 with
            | some v3 =>
              let r := base64Quanta rest
              ((v0 * 4 + v1 / 16) % 256 :: ((v1 % 16) * 16 + v2 / 4) ::
                ((v2 % 4) * 64 + v3) :: r.1, r.2)
            | none => ([], false)
        | none => ([], false)
    | _, _ => ([], false)
  | _ => ([], false)

/-- Go's `base64.NewDecoder` ignores carriage returns and newlines in its
input before decoding quanta. -/
def base64DecodeGo (s : List Nat) : List Nat × Bool :=
  base64Quanta (s.filter (fun c => c != 10 && c != 13))

/-- Hexadecimal digit value as accepted by `mime/quotedprintable`
(which also accepts lowercase hex). -/
def hexVal (c : Nat) : Option Nat :=
  if 48 ≤ c ∧ c ≤ 57 then some (c - 48)
  else if 65 ≤ c ∧ c ≤ 70 then some (c - 65 + 10)
  else if 97 ≤ c ∧ c ≤ 102 then some (c - 97 + 10)
  else none

/-- Quoted-printable decoding following `mime/quotedprintable`:
`=XY` hex escapes, soft line breaks `=\n` and `=\r\n`; a dangling or
malformed escape is an error.  Returns output so far plus a success
flag. -/
def qpDecodeGo : List Nat → List Nat × Bool
  | [] => ([], true)
  | [61] => ([], false)
  | 61 :: 10 :: r => qpDecodeGo r
  | 61 :: 13 :: 10 :: r => qpDecodeGo r
  | 61 :: h1 :: h2 :: r =>
    match hexVal h1, hexVal h2 with
    | some a, some b =>
      let q := qpDecodeGo r
      ((a * 16 + b) :: q.1, q.2)
    | _, _ => ([], false)
  | 61 :: _ :: [] => ([], false)
  | c :: rest =>
    let q := qpDecodeGo rest
    (c :: q.1, q.2)

/-- ASCII lowering of one character, modelling what `strings.ToLower`
does on the ASCII header values the code compares. -/
def lowerChar (c : Char) : Char :=
  if 65 ≤ c.toNat ∧ c.toNat ≤ 90 then Char.ofNat (c.toNat + 32) else c

/-- Model of `strings.ToLower` on ASCII strings. -/
def toLowerGo (s : String) : String := ⟨s.data.map lowerChar⟩

/-- Model of `strings.HasPrefix`. -/
def hasPrefixGo (s pre : String) : Bool := pre.data.isPrefixOf s.data

/-- ASCII bytes of a string, for concrete inputs. -/
def strBytes (s : String) : List Nat :=
  s.toList.map Char.toNat

/-- The record `ParseEmailBody` produces (Go struct `EmailContent`).
Body fields are byte lists because Go builds them with `string(bytes)`
without transcoding. -/
structure EmailContent where
  PlainText : List Nat
  HTML : List Nat
  To : String
  From : String
  Subject : String
  deriving Repr, DecidableEq

/-- One multipart body part as the Go loop sees it: `ctOK` is the success
of `mime.ParseMediaType` on the part's Content-Type header, `bodyOK` the
success of `io.ReadAll` on the part body. -/
structure Part where
  ctOK : Bool
  mediaType : String
  cte : String
  bodyOK : Bool
  body : List Nat
  deriving Repr, DecidableEq

/-- A mail message after framing: header fields, the parse status of the
top-level Content-Type, and either the multipart parts (when the media
type has the multipart prefix) or the single raw body.  `partsReadOK`
false means `mr.NextPart` fails after the listed parts instead of
returning EOF. -/
structure MimeMsg where
  readOK : Bool
  ctValid : Bool
  mediaType : String
  hTo : String
  hFrom : String
  hSubject : String
  cte : String
  parts : List Part
  partsReadOK : Bool
  bodyOK : Bool
  body : List Nat
  deriving Repr, DecidableEq

/-- Outcome of the transfer-encoding switch for one multipart part:
abort everything (quoted-printable failure), skip the part (base64
failure), or proceed with decoded bytes. -/
inductive PartStep where
  | fatal
  | skip
  | bytes (out : List Nat)
  deriving Repr, DecidableEq

/-- The multipart branch of the Content-Transfer-Encoding switch in
`ParseEmailBody`: empty or unrecognized encodings pass bytes through,
base64 failure skips the part, quoted-printable failure is fatal. -/
def decodeMultipartBody (cte : String) (b : List Nat) : PartStep :=
  if cte = "" then .bytes b
  else if toLowerGo cte = "base64" then
    match base64DecodeGo b with
    | (_, false) => .skip
    | (o, true) => .bytes o
  else if toLowerGo cte = "quoted-printable" then
    match qpDecodeGo b with
    | (_, false) => .fatal
    | (o, true) => .bytes o
  else .bytes b

/-- The media-type switch routing decoded bytes into the output record:
text/plain and text/html overwrite their fields; application/* and
anything else only log. -/
def routePart (ec : EmailContent) (mediaType : String) (d : List Nat) : EmailContent :=
  if hasPrefixGo mediaType "text/plain" then { ec with PlainText := d }
  else if hasPrefixGo mediaType "text/html" then { ec with HTML := d }
  else ec

/-- The multipart loop of `ParseEmailBody`: parts whose Content-Type
fails to parse or whose body fails to read are skipped with a warning;
the transfer-encoding switch then either aborts, skips or routes. -/
def parseParts : List Part → EmailContent → Except String EmailContent
  | [], ec => .ok ec
  | p :: ps, ec =>
    if p.ctOK = false then parseParts ps ec
    else if p.bodyOK = false then parseParts ps ec
    else
      match decodeMultipartBody p.cte p.body with
      | .fatal => .error "failed to quoted-printable decode"
      | .skip => parseParts ps ec
      | .bytes d => parseParts ps (routePart ec p.mediaType d)

/-- The single-part branch of the Content-Transfer-Encoding switch: a
base64 failure is only warned about and the partially decoded bytes are
kept (Go reassigns `decodedBytes` from `io.ReadAll` even on error);
quoted-printable failure aborts. -/
def decodeSingleBody (cte : String) (b : List Nat) : Except String (List Nat) :=
  if cte = "" then .ok b
  else if toLowerGo cte = "base64" then .ok (base64DecodeGo b).1
  else if toLowerGo cte = "quoted-printable" then
    match qpDecodeGo b with
    | (_, false) => .error "failed to quoted-printable decode"
    | (o, true) => .ok o
  else .ok b

/-- Embedding of `ParseEmailBody`: fatal on message-read or top-level
Content-Type failure; multipart container walked part by part, otherwise
the whole body is one part routed by the top-level media type. -/
def ParseEmailBody (m : MimeMsg) : Except String EmailContent :=
  if m.readOK = false then .error "failed to read email message"
  else if m.ctValid = false then .error "failed to parse Content-Type header"
  else
    let ec0 : EmailContent :=
      { PlainText := [], HTML := [], To := m.hTo, From := m.hFrom, Subject := m.hSubject }
    if hasPrefixGo m.mediaType "multipart/" then
      match parseParts m.parts ec0 with
      | .error e => .error e
      | .ok ec =>
        if m.partsReadOK = false then .error "failed to read multipart part"
        else .ok ec
    else
      if m.bodyOK = false then .error "failed to read single part email body"
      else
        match decodeSingleBody m.cte m.body with
        | .error e => .error e
        | .ok d => .ok (routePart ec0 m.mediaType d)

/-- True when the result is an error. -/
def isErr {ε α : Type} : Except ε α → Bool
  | .error _ => true
  | .ok _ => false

end EmailParse

namespace Openaiassistant

/-- Config bit flag: suppress internal error logging. -/
def SilenceErrors : Nat := 1 <<< 0

/-- Config bit flag: attempt to recall an existing thread ID. -/
def RecallThreadID : Nat := 1 <<< 1

/-- The `Assistant` struct.  The HTTP client is not state the logic
reads, so it is not carried. -/
structure Assistant where
  silenceErrors : Bool
  runID : String
  openAIKey : String
  assistantID : String
  threadID : String
  deriving Repr, DecidableEq

/-- Text content within a message (`Text` struct, `value` field). -/
structure MsgText where
  value : String
  deriving Repr, DecidableEq

/-- One content block of a message (`Content` struct). -/
structure MsgContent where
  type : String
  text : MsgText
  deriving Repr, DecidableEq

/-- A message of a thread (`Message` struct); only the fields the client
reads are carried. -/
structure Message where
  role : String
  content : List MsgContent
  deriving Repr, DecidableEq

/-- The fields a successfully parsed JSON response body can supply to the
various `json.Unmarshal` targets: `id` (thread or run id), `status`
(run status), `errMessage` (`error.message` of the error descriptor) and
`data` (message list).  A field the body does not carry unmarshals to
the zero value, as in Go. -/
structure JSONBody where
  id : String
  status : String
  errMessage : String
  data : List Message
  raw : String
  deriving Repr, DecidableEq

/-- A response body is either invalid JSON (every unmarshal fails) or
valid JSON (every unmarshal succeeds, extracting its fields). -/
inductive RespBody where
  | invalidJSON (raw : String)
  | validJSON (j : JSONBody)
  deriving Repr, DecidableEq

/-- Outcome of one HTTP request: transport error from `httpClient.Do`,
failure of `io.ReadAll` on the response body, or a status code with a
body. -/
inductive HTTPOutcome where
  | transportError
  | readBodyError
  | response (status : Nat) (body : RespBody)
  deriving Repr, DecidableEq

/-- Pop the next outcome from the transport trace; an exhausted trace
behaves as a transport error. -/
def takeOutcome : List HTTPOutcome → HTTPOutcome × List HTTPOutcome
  | [] => (.transportError, [])
  | o :: t => (o, t)

/-- `logError`: appends the log line unless `silenceErrors` is set. -/
def logError (a : Assistant) (log : List String) (message : String) : List String :=
  if a.silenceErrors = false then log ++ ["Assistant Error: " ++ message] else log

/-- Result of `initialiseThread`: error message if any, the (possibly
updated) assistant, the remaining transport trace and the log lines. -/
structure InitResult where
  err : Option String
  a : Assistant
  trace : List HTTPOutcome
  log : List String
  deriving Repr, DecidableEq

/-- Embedding of `initialiseThread`: one POST; non-200 statuses and
undecodable bodies fail and leave `threadID` untouched, a 200 response
that decodes stores the returned thread id. -/
def initialiseThread (a : Assistant) (t : List HTTPOutcome) : InitResult :=
  let r := takeOutcome t
  match r.1 with
  | .transportError =>
    { err := some "error sending request"
      a := a
      trace := r.2
      log := logError a [] "Error sending request to initialize thread" }
  | .readBodyError =>
    { err := some "failed to read response body"
      a := a
      trace := r.2
      log := logError a [] "Failed to read response body for thread initialization" }
  | .response status body =>
    if status ≠ 200 then
      match body with
      | .invalidJSON raw =>
        { err := some ("thread initialization failed with status: " ++ raw)
          a := a
          trace := r.2
          log := logError a [] "Non-OK status, but failed to unmarshal error response for thread init" }
      | .validJSON j =>
        { err := some ("thread could not be initialised: " ++ j.errMessage)
          a := a
          trace := r.2
          log := logError a [] ("Thread initialization failed, error: " ++ j.errMessage) }
    else
      match body with
      | .invalidJSON _ =>
        { err := some "failed to unmarshal thread response"
          a := a
          trace := r.2
          log := logError a [] "Failed to unmarshal thread initialization response" }
      | .validJSON j =>
        { err := none
          a := { a with threadID := j.id }
          trace := r.2
          log := [] }

/-- Equality of `Except` values is decidable when it is on both sides. -/
instance exceptDecEq {ε α : Type} [DecidableEq ε] [DecidableEq α] :
    DecidableEq (Except ε α)
  | .error e1, .error e2 =>
    if h : e1 = e2 then .isTrue (by rw [h])
    else .isFalse (by intro hc; cases hc; exact h rfl)
  | .error _, .ok _ => .isFalse (by intro hc; cases hc)
  | .ok _, .error _ => .isFalse (by intro hc; cases hc)
  | .ok a1, .ok a2 =>
    if h : a1 = a2 then .isTrue (by rw [h])
    else .isFalse (by intro hc; cases hc; exact h rfl)

/-- Result of `NewAssistant`. -/
structure NewResult where
  res : Except String Assistant
  trace : List HTTPOutcome
  log : List String
  deriving Repr, DecidableEq

/-- Embedding of `NewAssistant`: builds the struct from the config bits;
when `RecallThreadID` is set and an initial thread id is supplied, adopts
it without any request, otherwise initialises a new thread. -/
def NewAssistant (openAIKey assistantID : String) (configOptions : Nat)
    (initialThreadID : String) (t : List HTTPOutcome) : NewResult :=
  let a : Assistant :=
    { silenceErrors := configOptions &&& SilenceErrors ≠ 0
      runID := ""
      openAIKey := openAIKey
      assistantID := assistantID
      threadID := "" }
  if configOptions &&& RecallThreadID ≠ 0 ∧ initialThreadID ≠ "" then
    { res := .ok { a with threadID := initialThreadID }, trace := t, log := [] }
  else
    let r := initialiseThread a t
    match r.err with
    | some e => { res := .error ("failed to initialize thread: " ++ e), trace := r.trace, log := r.log }
    | none => { res := .ok r.a, trace := r.trace, log := r.log }

/-- Result of `GetLastMessage`: the reply text (empty on any failure),
remaining trace and log lines. -/
structure MsgResult where
  reply : String
  trace : List HTTPOutcome
  log : List String
  deriving Repr, DecidableEq

/-- Embedding of `GetLastMessage`: one GET; on a 200 response that
decodes, returns the first content block's text of the first message
when that block is text-typed, and the empty string (with a diagnostic)
in every other case. -/
def GetLastMessage (a : Assistant) (t : List HTTPOutcome) : MsgResult :=
  let r := takeOutcome t
  match r.1 with
  | .transportError =>
    { reply := "", trace := r.2
      log := logError a [] "Error sending request to get last message" }
  | .readBodyError =>
    { reply := "", trace := r.2
      log := logError a [] "Failed to read response body for getting last message" }
  | .response status body =>
    if status ≠ 200 then
      match body with
      | .invalidJSON _ =>
        { reply := "", trace := r.2
          log := logError a [] "Non-OK status, but failed to unmarshal error response for get last message" }
      | .validJSON j =>
        { reply := "", trace := r.2
          log := logError a [] ("Get last message failed, error: " ++ j.errMessage) }
    else
      match body with
      | .invalidJSON _ =>
        { reply := "", trace := r.2
          log := logError a [] "Failed to unmarshal messages response" }
      | .validJSON j =>
        match j.data with
        | m :: _ =>
          match m.content with
          | c :: _ =>
            if c.type = "text" then
              { reply := c.text.value, trace := r.2, log := [] }
            else
              { reply := "", trace := r.2
                log := logError a [] "No text content found in the last message or message structure is unexpected." }
          | [] =>
            { reply := "", trace := r.2
              log := logError a [] "No text content found in the last message or message structure is unexpected." }
        | [] =>
          { reply := "", trace := r.2
            log := logError a [] "No text content found in the last message or message structure is unexpected." }

/-- Result of `runThread`: the Boolean the Go function returns, the
assistant (whose `runID` is set on success), the remaining trace and the
log lines. -/
structure RunResult where
  ok : Bool
  a : Assistant
  trace : List HTTPOutcome
  log : List String
  deriving Repr, DecidableEq

/-- Embedding of `runThread`: one POST; false with a diagnostic on every
failure, true with `runID` stored on a 200 response that decodes. -/
def runThread (a : Assistant) (t : List HTTPOutcome) : RunResult :=
  let r := takeOutcome t
  match r.1 with
  | .transportError =>
    { ok := false, a := a, trace := r.2
      log := logError a [] "Error sending request to run thread" }
  | .readBodyError =>
    { ok := false, a := a, trace := r.2
      log := logError a [] "Failed to read response body for running thread" }
  | .response status body =>
    if status ≠ 200 then
      match body with
      | .invalidJSON _ =>
        { ok := false, a := a, trace := r.2
          log := logError a [] "Non-OK status, but failed to unmarshal error response for run thread" }
      | .validJSON j =>
        { ok := false, a := a, trace := r.2
          log := logError a [] ("Error when attempting to run OpenAI assistant on thread, error: " ++ j.errMessage) }
    else
      match body with
      | .invalidJSON _ =>
        { ok := false, a := a, trace := r.2
          log := logError a [] "Failed to unmarshal run thread response" }
      | .validJSON j =>
        { ok := true, a := { a with runID := j.id }, trace := r.2, log := [] }

/-- Result of the poll loop: the reply (empty on failure or timeout),
remaining trace, the number of poll requests issued, the list of sleep
durations executed (one entry of `retryWait` seconds per wait) and the
log lines. -/
structure PollResult where
  reply : String
  trace : List HTTPOutcome
  polls : Nat
  sleeps : List Int
  log : List String
  deriving Repr, DecidableEq

/-- The body of `pollThreadForReply`'s loop, with fuel counting the
iterations left (`fuel = f + 1` during iteration `i` means `retries - i = f`,
so `fuel = 1` is the last iteration, where a transport error is also
logged).  Exhausted fuel is the loop falling through to the timeout
diagnostic. -/
def pollFuel (a : Assistant) (retryWait : Int) : Nat → List HTTPOutcome → PollResult
  | 0, t =>
    { reply := "", trace := t, polls := 0, sleeps := []
      log := logError a [] "Polling for thread reply timed out after maximum retries." }
  | f + 1, t =>
    let r := takeOutcome t
    match r.1 with
    | .transportError =>
      let lg := if f = 0 then
          logError a [] "Error sending request to poll run status on last retry"
        else []
      let q := pollFuel a retryWait f r.2
      { reply := q.reply, trace := q.trace, polls := q.polls + 1
        sleeps := retryWait :: q.sleeps, log := lg ++ q.log }
    | .readBodyError =>
      let lg := logError a [] "Failed to read response body for polling run status"
      let q := pollFuel a retryWait f r.2
      { reply := q.reply, trace := q.trace, polls := q.polls + 1
        sleeps := retryWait :: q.sleeps, log := lg ++ q.log }
    | .response status body =>
      if status ≠ 200 then
        let lg :=
          match body with
          | .invalidJSON _ =>
            logError a [] "Non-OK status, but failed to unmarshal error response for poll run"
          | .validJSON j =>
            logError a [] ("Poll thread failed, error: " ++ j.errMessage)
        let q := pollFuel a retryWait f r.2
        { reply := q.reply, trace := q.trace, polls := q.polls + 1
          sleeps := retryWait :: q.sleeps, log := lg ++ q.log }
      else
        match body with
        | .invalidJSON _ =>
          let lg := logError a [] "Failed to unmarshal poll run response"
          let q := pollFuel a retryWait f r.2
          { reply := q.reply, trace := q.trace, polls := q.polls + 1
            sleeps := retryWait :: q.sleeps, log := lg ++ q.log }
        | .validJSON j =>
          if j.status = "failed" then
            { reply := "", trace := r.2, polls := 1, sleeps := []
              log := logError a [] ("OpenAI run failed with status: " ++ j.status) }
          else if j.status = "completed" then
            let g := GetLastMessage a r.2
            { reply := g.reply, trace := g.trace, polls := 1, sleeps := [], log := g.log }
          else
            let q := pollFuel a retryWait f r.2
            { reply := q.reply, trace := q.trace, polls := q.polls + 1
              sleeps := retryWait :: q.sleeps, log := q.log }

/-- Embedding of `pollThreadForReply`: the Go loop `for i := 0; i <= retries; i++`
executes `retries + 1` iterations when `retries ≥ 0` and none when
`retries < 0`. -/
def pollThreadForReply (a : Assistant) (retries retryWait : Int)
    (t : List HTTPOutcome) : PollResult :=
  pollFuel a retryWait (retries + 1).toNat t

/-- Result of `AddMessageToThread`: the reply or error surfaced to the
caller, the (possibly mutated) assistant, remaining trace and log
lines. -/
structure ConverseResult where
  res : Except String String
  a : Assistant
  trace : List HTTPOutcome
  log : List String
  deriving Repr, DecidableEq

/-- Embedding of `AddMessageToThread`: guard on the empty thread id (no
request, no log), then the message POST, then `runThread`, then
`pollThreadForReply 10 1`; an empty polled reply surfaces as the generic
poll error. -/
def AddMessageToThread (a : Assistant) (_prompt : String)
    (t : List HTTPOutcome) : ConverseResult :=
  if a.threadID = "" then
    { res := .error "thread not initialized. Call NewAssistant or ResetThread first"
      a := a, trace := t, log := [] }
  else
    let r := takeOutcome t
    match r.1 with
    | .transportError =>
      { res := .error "error sending request", a := a, trace := r.2
        log := logError a [] "Error sending request to add message to thread" }
    | .readBodyError =>
      { res := .error "failed to read response body", a := a, trace := r.2
        log := logError a [] "Failed to read response body for adding message" }
    | .response status body =>
      if status ≠ 200 then
        match body with
        | .invalidJSON raw =>
          { res := .error ("add message failed with status: " ++ raw), a := a, trace := r.2
            log := logError a [] "Non-OK status, but failed to unmarshal error response for add message" }
        | .validJSON j =>
          { res := .error ("failed to add message: " ++ j.errMessage), a := a, trace := r.2
            log := logError a [] ("Error when attempting to publish message to OpenAI thread, error: " ++ j.errMessage) }
      else
        let run := runThread a r.2
        if run.ok = false then
          { res := .error "failed to run thread after adding message"
            a := run.a, trace := run.trace, log := run.log }
        else
          let p := pollThreadForReply run.a 10 1 run.trace
          if p.reply = "" then
            { res := .error "failed to get reply from thread after polling"
              a := run.a, trace := p.trace, log := run.log ++ p.log }
          else
            { res := .ok p.reply, a := run.a, trace := p.trace, log := run.log ++ p.log }

end Openaiassistant

namespace EmailParse

/-- A part that triggers the fatal quoted-printable branch of the
multipart loop. -/
def partFatal (p : Part) : Bool :=
  p.ctOK && p.bodyOK && (decodeMultipartBody p.cte p.body == .fatal)

/-- A text/plain part with no transfer encoding. -/
def plainPart (b : String) : Part :=
  { ctOK := true, mediaType := "text/plain", cte := "", bodyOK := true, body := strBytes b }

/-- A text/html part with no transfer encoding. -/
def htmlPart (b : String) : Part :=
  { ctOK := true, mediaType := "text/html", cte := "", bodyOK := true, body := strBytes b }

/-- A quoted-printable part whose body fails to decode (bad hex escape),
with mixed-case encoding header. -/
def qpBadPart : Part :=
  { ctOK := true, mediaType := "text/plain", cte := "Quoted-Printable", bodyOK := true
    body := strBytes "a=G1" }

/-- A base64 part whose body fails to decode (truncated quantum). -/
def b64BadPart : Part :=
  { ctOK := true, mediaType := "text/plain", cte := "base64", bodyOK := true
    body := strBytes "A" }

/-- A well-formed multipart message with the given parts. -/
def mkMulti (ps : List Part) : MimeMsg :=
  { readOK := true, ctValid := true, mediaType := "multipart/mixed", hTo := "to@x"
    hFrom := "from@x", hSubject := "s", cte := "", parts := ps, partsReadOK := true
    bodyOK := true, body := [] }

/-- A well-formed single-part message. -/
def mkSingle (mt cte b : String) : MimeMsg :=
  { readOK := true, ctValid := true, mediaType := mt, hTo := "to@x"
    hFrom := "from@x", hSubject := "s", cte := cte, parts := [], partsReadOK := true
    bodyOK := true, body := strBytes b }

end EmailParse

namespace Openaiassistant

/-- A poll outcome that keeps the loop going: 200 with valid JSON whose
run status is neither failed nor completed. -/
def nonTerminal200 : HTTPOutcome → Bool
  | .response status (.validJSON j) =>
    status == 200 && !(j.status == "failed") && !(j.status == "completed")
  | _ => false

/-- An outcome the success paths accept: status 200 with a decodable
body. -/
def decodesOK : HTTPOutcome → Bool
  | .response status (.validJSON _) => status == 200
  | _ => false

/-- The assistant with its logging flag replaced. -/
def withSilence (a : Assistant) (b : Bool) : Assistant :=
  { a with silenceErrors := b }

/-- A ready assistant session that logs. -/
def aLoud : Assistant :=
  { silenceErrors := false, runID := "run_1", openAIKey := "k", assistantID := "asst_1"
    threadID := "thread_1" }

/-- An uninitialised assistant session that logs. -/
def aBlank : Assistant :=
  { silenceErrors := false, runID := "", openAIKey := "k", assistantID := "asst_1"
    threadID := "" }

/-- A JSON body carrying only a run status. -/
def jStatus (s : String) : JSONBody :=
  { id := "", status := s, errMessage := "", data := [], raw := "" }

/-- A 200 response whose body carries the given run status. -/
def okStatus (s : String) : HTTPOutcome :=
  .response 200 (.validJSON (jStatus s))

/-- A 200 response carrying a created run id. -/
def okRun : HTTPOutcome :=
  .response 200 (.validJSON { id := "run_9", status := "queued", errMessage := "", data := [], raw := "" })

/-- An assistant message whose single content block is text. -/
def replyMsg (v : String) : Message :=
  { role := "assistant", content := [{ type := "text", text := { value := v } }] }

/-- A 200 list-messages response seeded with one text reply. -/
def okMsgs (v : String) : HTTPOutcome :=
  .response 200 (.validJSON { id := "", status := "", errMessage := "", data := [replyMsg v], raw := "" })

/-- A 200 list-messages response whose first message has a non-text
first block followed by a text block. -/
def okMsgsMixed : HTTPOutcome :=
  .response 200 (.validJSON
    { id := "", status := "", errMessage := "", data :=
        [{ role := "assistant", content :=
            [{ type := "image_file", text := { value := "" } },
             { type := "text", text := { value := "hi" } }] }]
      raw := "" })

/-- A bare 200 response with an uninformative valid body (the add-message
success path never decodes its body). -/
def okEmpty : HTTPOutcome :=
  .response 200 (.validJSON { id := "", status := "", errMessage := "", data := [], raw := "" })

end Openaiassistant

open EmailParse Openaiassistant

theorem toLowerGo_empty : toLowerGo "" = "" := rfl

theorem decodeMultipartBody_fatal {cte : String} {b : List Nat}
    (hlow : toLowerGo cte = "quoted-printable") (hfail : (qpDecodeGo b).2 = false) :
    decodeMultipartBody cte b = .fatal := by
  have hne : cte ≠ "" := by
    intro h
    rw [h, toLowerGo_empty] at hlow
    exact absurd hlow (by decide)
  have hb : toLowerGo cte ≠ "base64" := by rw [hlow]; decide
  rcases hq : qpDecodeGo b with ⟨o, fl⟩
  rw [hq] at hfail
  subst hfail
  simp [decodeMultipartBody, hne, hb, hlow, hq]

theorem decodeMultipartBody_skip {cte : String} {b : List Nat}
    (hlow : toLowerGo cte = "base64") (hfail : (base64DecodeGo b).2 = false) :
    decodeMultipartBody cte b = .skip := by
  have hne : cte ≠ "" := by
    intro h
    rw [h, toLowerGo_empty] at hlow
    exact absurd hlow (by decide)
  rcases hq : base64DecodeGo b with ⟨o, fl⟩
  rw [hq] at hfail
  subst hfail
  simp [decodeMultipartBody, hne, hlow, hq]

theorem decodeSingleBody_qp_err {cte : String} {b : List Nat}
    (hlow : toLowerGo cte = "quoted-printable") (hfail : (qpDecodeGo b).2 = false) :
    decodeSingleBody cte b = .error "failed to quoted-printable decode" := by
  have hne : cte ≠ "" := by
    intro h
    rw [h, toLowerGo_empty] at hlow
    exact absurd hlow (by decide)
  have hb : toLowerGo cte ≠ "base64" := by rw [hlow]; decide
  rcases hq : qpDecodeGo b with ⟨o, fl⟩
  rw [hq] at hfail
  subst hfail
  simp [decodeSingleBody, hne, hb, hlow, hq]

theorem decodeSingleBody_base64 {cte : String} {b : List Nat}
    (hlow : toLowerGo cte = "base64") :
    decodeSingleBody cte b = .ok (base64DecodeGo b).1 := by
  have hne : cte ≠ "" := by
    intro h
    rw [h, toLowerGo_empty] at hlow
    exact absurd hlow (by decide)
  simp [decodeSingleBody, hne, hlow]

theorem isErr_parseParts (ps : List Part) (ec : EmailContent) :
    isErr (parseParts ps ec) = ps.any partFatal := by
  induction ps generalizing ec with
  | nil => simp [parseParts, isErr]
  | cons p ps ih =>
    cases hc : p.ctOK with
    | false => simp [parseParts, hc, partFatal, ih]
    | true =>
      cases hb : p.bodyOK with
      | false => simp [parseParts, hc, hb, partFatal, ih]
      | true =>
        rcases hd : decodeMultipartBody p.cte p.body with _ | _ | d
        · simp [parseParts, hc, hb, hd, partFatal, isErr]
        · simp [parseParts, hc, hb, hd, partFatal, ih]
        · simp [parseParts, hc, hb, hd, partFatal, ih]

theorem parseParts_skip_middle (l1 : List Part) (p : Part) (l2 : List Part)
    (hc : p.ctOK = true) (hb : p.bodyOK = true)
    (hd : decodeMultipartBody p.cte p.body = .skip) :
    ∀ ec, parseParts (l1 ++ p :: l2) ec = parseParts (l1 ++ l2) ec := by
  induction l1 with
  | nil =>
    intro ec
    simp [parseParts, hc, hb, hd]
  | cons q l1 ih =>
    intro ec
    cases hqc : q.ctOK with
    | false => simp [parseParts, hqc, ih]
    | true =>
      cases hqb : q.bodyOK with
      | false => simp [parseParts, hqc, hqb, ih]
      | true =>
        rcases hqd : decodeMultipartBody q.cte q.body with _ | _ | d <;>
          simp [parseParts, hqc, hqb, hqd, ih]

theorem routePart_PlainText (ec : EmailContent) (mt : String) (d : List Nat)
    (h : hasPrefixGo mt "text/plain" = false) :
    (routePart ec mt d).PlainText = ec.PlainText := by
  unfold routePart
  rw [if_neg (by simp [h])]
  split <;> rfl

theorem routePart_HTML (ec : EmailContent) (mt : String) (d : List Nat)
    (h : hasPrefixGo mt "text/html" = false) :
    (routePart ec mt d).HTML = ec.HTML := by
  unfold routePart
  by_cases hp : hasPrefixGo mt "text/plain" = true
  · rw [if_pos (by simp [hp])]
  · rw [if_neg (by simp [hp]), if_neg (by simp [h])]

theorem parseParts_plain_preserved (ps : List Part)
    (h : ∀ p ∈ ps, hasPrefixGo p.mediaType "text/plain" = false) :
    ∀ ec ec2, parseParts ps ec = .ok ec2 → ec2.PlainText = ec.PlainText := by
  induction ps with
  | nil =>
    intro ec ec2 hp
    simp [parseParts] at hp
    rw [← hp]
  | cons p ps ih =>
    intro ec ec2 hp
    have hhd := h p (by simp)
    have htl : ∀ q ∈ ps, hasPrefixGo q.mediaType "text/plain" = false :=
      fun q hq => h q (by simp [hq])
    cases hc : p.ctOK with
    | false =>
      simp only [parseParts, hc, if_pos] at hp
      exact ih htl ec ec2 hp
    | true =>
      cases hb : p.bodyOK with
      | false =>
        simp only [parseParts, hc, hb] at hp
        simp at hp
        exact ih htl ec ec2 hp
      | true =>
        rcases hd : decodeMultipartBody p.cte p.body with _ | _ | d <;>
          simp only [parseParts, hc, hb, hd] at hp <;> simp at hp
        · exact ih htl ec ec2 hp
        · rw [ih htl _ ec2 hp, routePart_PlainText ec p.mediaType d hhd]

theorem parseParts_html_preserved (ps : List Part)
    (h : ∀ p ∈ ps, hasPrefixGo p.mediaType "text/html" = false) :
    ∀ ec ec2, parseParts ps ec = .ok ec2 → ec2.HTML = ec.HTML := by
  induction ps with
  | nil =>
    intro ec ec2 hp
    simp [parseParts] at hp
    rw [← hp]
  | cons p ps ih =>
    intro ec ec2 hp
    have hhd := h p (by simp)
    have htl : ∀ q ∈ ps, hasPrefixGo q.mediaType "text/html" = false :=
      fun q hq => h q (by simp [hq])
    cases hc : p.ctOK with
    | false =>
      simp only [parseParts, hc, if_pos] at hp
      exact ih htl ec ec2 hp
    | true =>
      cases hb : p.bodyOK with
      | false =>
        simp only [parseParts, hc, hb] at hp
        simp at hp
        exact ih htl ec ec2 hp
      | true =>
        rcases hd : decodeMultipartBody p.cte p.body with _ | _ | d <;>
          simp only [parseParts, hc, hb, hd] at hp <;> simp at hp
        · exact ih htl ec ec2 hp
        · rw [ih htl _ ec2 hp, routePart_HTML ec p.mediaType d hhd]

theorem ParseEmailBody_multipart (m : MimeMsg)
    (h1 : m.readOK = true) (h2 : m.ctValid = true)
    (h3 : hasPrefixGo m.mediaType "multipart/" = true) :
    ParseEmailBody m =
      match parseParts m.parts ⟨[], [], m.hTo, m.hFrom, m.hSubject⟩ with
      | .error e => .error e
      | .ok ec =>
        if m.partsReadOK = false then .error "failed to read multipart part"
        else .ok ec := by
  simp [ParseEmailBody, h1, h2, h3]

theorem isErr_ParseEmailBody_multipart (m : MimeMsg)
    (h1 : m.readOK = true) (h2 : m.ctValid = true)
    (h3 : hasPrefixGo m.mediaType "multipart/" = true) :
    isErr (ParseEmailBody m) = (m.parts.any partFatal || !m.partsReadOK) := by
  rw [ParseEmailBody_multipart m h1 h2 h3]
  have h4 := isErr_parseParts m.parts ⟨[], [], m.hTo, m.hFrom, m.hSubject⟩
  rcases hpp : parseParts m.parts ⟨[], [], m.hTo, m.hFrom, m.hSubject⟩ with e | ec
  · rw [hpp] at h4
    simp [isErr] at h4
    simp [isErr]
    exact Or.inl h4
  · rw [hpp] at h4
    simp [isErr] at h4
    cases hpr : m.partsReadOK with
    | false => simp [isErr, hpr]
    | true =>
      simp [isErr, hpr]
      exact h4

/-- Claim C5: a quoted-printable decode failure on any part whose
Content-Transfer-Encoding is quoted-printable (case-insensitively) aborts
the whole extraction of a well-formed message with a ParseError, in both
the multipart and the single-part case. -/
theorem C5_qp_failure_aborts (m : MimeMsg) :
    (m.readOK = true → m.ctValid = true →
      hasPrefixGo m.mediaType "multipart/" = true →
      (∃ p ∈ m.parts, p.ctOK = true ∧ p.bodyOK = true ∧
        toLowerGo p.cte = "quoted-printable" ∧ (qpDecodeGo p.body).2 = false) →
      isErr (ParseEmailBody m) = true) ∧
    (m.readOK = true → m.ctValid = true →
      hasPrefixGo m.mediaType "multipart/" = false → m.bodyOK = true →
      toLowerGo m.cte = "quoted-printable" → (qpDecodeGo m.body).2 = false →
      isErr (ParseEmailBody m) = true) := by
  constructor
  · rintro h1 h2 h3 ⟨p, hp, hc, hb, hlow, hfail⟩
    rw [isErr_ParseEmailBody_multipart m h1 h2 h3]
    have hfat : partFatal p = true := by
      simp [partFatal, hc, hb, decodeMultipartBody_fatal hlow hfail]
    have hany : m.parts.any partFatal = true := List.any_eq_true.mpr ⟨p, hp, hfat⟩
    simp [hany]
  · intro h1 h2 h3 h4 hlow hfail
    simp [ParseEmailBody, h1, h2, h3, h4, decodeSingleBody_qp_err hlow hfail, isErr]

/-- Witness for C5 at a concrete multipart and a concrete single-part
message, each with a bad quoted-printable body. -/
theorem C5_qp_failure_aborts_witness :
    isErr (ParseEmailBody (mkMulti [plainPart "x", qpBadPart])) = true ∧
    isErr (ParseEmailBody (mkSingle "text/plain" "Quoted-Printable" "a=G1")) = true := by
  constructor
  · exact (C5_qp_failure_aborts (mkMulti [plainPart "x", qpBadPart])).1 rfl rfl (by decide)
      ⟨qpBadPart, by decide, rfl, rfl, by decide, by decide⟩
  · exact (C5_qp_failure_aborts (mkSingle "text/plain" "Quoted-Printable" "a=G1")).2 rfl rfl
      (by decide) rfl (by decide) (by decide)

/-- Claim C6: a base64 decode failure on a multipart part only skips that
part (the result equals extraction of the message without it, and no fatal
error arises when the remaining parts are free of quoted-printable
failures); a single-part base64 decode failure never aborts the
message. -/
theorem C6_base64_failure_nonfatal (m : MimeMsg) :
    (∀ l1 p l2, m.parts = l1 ++ p :: l2 →
      p.ctOK = true → p.bodyOK = true →
      toLowerGo p.cte = "base64" → (base64DecodeGo p.body).2 = false →
      ParseEmailBody m = ParseEmailBody { m with parts := l1 ++ l2 } ∧
      (m.readOK = true → m.ctValid = true →
        hasPrefixGo m.mediaType "multipart/" = true → m.partsReadOK = true →
        (∀ q ∈ l1 ++ l2, partFatal q = false) →
        isErr (ParseEmailBody m) = false)) ∧
    (m.readOK = true → m.ctValid = true →
      hasPrefixGo m.mediaType "multipart/" = false → m.bodyOK = true →
      toLowerGo m.cte = "base64" →
      isErr (ParseEmailBody m) = false) := by
  constructor
  · intro l1 p l2 hparts hc hb hlow hfail
    have hskip := decodeMultipartBody_skip hlow hfail
    have hpp := parseParts_skip_middle l1 p l2 hc hb hskip
    have hrm : ParseEmailBody m = ParseEmailBody { m with parts := l1 ++ l2 } := by
      cases m with
      | mk readOK ctValid mediaType hTo hFrom hSubject cte parts partsReadOK bodyOK body =>
        simp only at hparts
        subst hparts
        simp only [ParseEmailBody]
        rw [hpp]
    refine ⟨hrm, ?_⟩
    intro h1 h2 h3 h4 hnofat
    rw [hrm, isErr_ParseEmailBody_multipart { m with parts := l1 ++ l2 } h1 h2 h3]
    have hany : (l1 ++ l2).any partFatal = false := by
      rw [List.any_eq_false]
      intro x hx
      simp [hnofat x hx]
    simp [hany, h4]
  · intro h1 h2 h3 h4 hlow
    simp [ParseEmailBody, h1, h2, h3, h4, decodeSingleBody_base64 hlow, isErr]

/-- Witness for C6 at a concrete two-part message whose first part fails
base64 decoding and at a concrete single-part message with a bad base64
body. -/
theorem C6_base64_failure_nonfatal_witness :
    ParseEmailBody (mkMulti [b64BadPart, htmlPart "H"]) =
      ParseEmailBody { mkMulti [b64BadPart, htmlPart "H"] with parts := [] ++ [htmlPart "H"] } ∧
    isErr (ParseEmailBody (mkMulti [b64BadPart, htmlPart "H"])) = false ∧
    isErr (ParseEmailBody (mkSingle "text/plain" "base64" "A")) = false := by
  have h := (C6_base64_failure_nonfatal (mkMulti [b64BadPart, htmlPart "H"])).1
    [] b64BadPart [htmlPart "H"] rfl rfl rfl (by decide) (by decide)
  exact ⟨h.1, h.2 rfl rfl (by decide) rfl (by decide),
    (C6_base64_failure_nonfatal (mkSingle "text/plain" "base64" "A")).2 rfl rfl (by decide) rfl
      (by decide)⟩

/-- Claim C7: for two text/plain parts in sequence the second part's
decoded content overwrites the first (last-wins), and plainText and html
default to the empty byte string when no part of the corresponding media
type exists. -/
theorem C7_last_wins_and_defaults :
    (∀ m p1 p2 d1 d2,
      m.readOK = true → m.ctValid = true →
      hasPrefixGo m.mediaType "multipart/" = true → m.partsReadOK = true →
      m.parts = [p1, p2] →
      p1.ctOK = true → p1.bodyOK = true →
      decodeMultipartBody p1.cte p1.body = .bytes d1 →
      hasPrefixGo p1.mediaType "text/plain" = true →
      p2.ctOK = true → p2.bodyOK = true →
      decodeMultipartBody p2.cte p2.body = .bytes d2 →
      hasPrefixGo p2.mediaType "text/plain" = true →
      ParseEmailBody m =
        .ok { PlainText := d2, HTML := [], To := m.hTo, From := m.hFrom
              Subject := m.hSubject }) ∧
    (∀ m ec, hasPrefixGo m.mediaType "multipart/" = true →
      ParseEmailBody m = .ok ec →
      ((∀ p ∈ m.parts, hasPrefixGo p.mediaType "text/plain" = false) →
        ec.PlainText = []) ∧
      ((∀ p ∈ m.parts, hasPrefixGo p.mediaType "text/html" = false) →
        ec.HTML = [])) := by
  constructor
  · intro m p1 p2 d1 d2 h1 h2 h3 h4 hps hc1 hb1 hd1 hm1 hc2 hb2 hd2 hm2
    rw [ParseEmailBody_multipart m h1 h2 h3, hps]
    simp [parseParts, hc1, hb1, hd1, hc2, hb2, hd2, routePart, hm1, hm2, h4]
  · intro m ec h3 hok
    cases hro : m.readOK with
    | false => simp only [ParseEmailBody, hro] at hok; simp at hok
    | true =>
    cases hcv : m.ctValid with
    | false => simp only [ParseEmailBody, hro, hcv] at hok; simp at hok
    | true =>
    rw [ParseEmailBody_multipart m hro hcv h3] at hok
    rcases hpp : parseParts m.parts ⟨[], [], m.hTo, m.hFrom, m.hSubject⟩ with e | ec2
    · rw [hpp] at hok
      cases hok
    · rw [hpp] at hok
      cases hpr : m.partsReadOK with
      | false =>
        rw [hpr] at hok
        simp at hok
      | true =>
        rw [hpr] at hok
        simp at hok
        subst hok
        exact ⟨fun hno => parseParts_plain_preserved m.parts hno _ _ hpp,
               fun hno => parseParts_html_preserved m.parts hno _ _ hpp⟩

/-- Witness for C7: two concrete text/plain parts (second wins), a
concrete message with no text/plain part, and one with no text/html
part. -/
theorem C7_last_wins_and_defaults_witness :
    ParseEmailBody (mkMulti [plainPart "first", plainPart "second"]) =
      .ok { PlainText := strBytes "second", HTML := [], To := "to@x", From := "from@x"
            Subject := "s" } ∧
    (⟨[], strBytes "H", "to@x", "from@x", "s"⟩ : EmailContent).PlainText = [] ∧
    (⟨strBytes "P", [], "to@x", "from@x", "s"⟩ : EmailContent).HTML = [] := by
  refine ⟨?_, ?_, ?_⟩
  · exact C7_last_wins_and_defaults.1 (mkMulti [plainPart "first", plainPart "second"])
      (plainPart "first") (plainPart "second") (strBytes "first") (strBytes "second")
      rfl rfl (by decide) rfl rfl rfl rfl (by decide) (by decide) rfl rfl (by decide) (by decide)
  · exact (C7_last_wins_and_defaults.2 (mkMulti [htmlPart "H"])
      ⟨[], strBytes "H", "to@x", "from@x", "s"⟩ (by decide) (by decide)).1 (by decide)
  · exact (C7_last_wins_and_defaults.2 (mkMulti [plainPart "P"])
      ⟨strBytes "P", [], "to@x", "from@x", "s"⟩ (by decide) (by decide)).2 (by decide)

/-- Claim C8: one text/plain part and one text/html part populate both
fields with their decoded contents, and the parsed record does not depend
on the order of the two parts. -/
theorem C8_order_commutes (m : MimeMsg) (p q : Part) (dp dq : List Nat)
    (h1 : m.readOK = true) (h2 : m.ctValid = true)
    (h3 : hasPrefixGo m.mediaType "multipart/" = true) (h4 : m.partsReadOK = true)
    (hcp : p.ctOK = true) (hbp : p.bodyOK = true)
    (hdp : decodeMultipartBody p.cte p.body = .bytes dp)
    (hmp : hasPrefixGo p.mediaType "text/plain" = true)
    (hcq : q.ctOK = true) (hbq : q.bodyOK = true)
    (hdq : decodeMultipartBody q.cte q.body = .bytes dq)
    (hmq1 : hasPrefixGo q.mediaType "text/plain" = false)
    (hmq2 : hasPrefixGo q.mediaType "text/html" = true) :
    ParseEmailBody { m with parts := [p, q] } =
      .ok { PlainText := dp, HTML := dq, To := m.hTo, From := m.hFrom
            Subject := m.hSubject } ∧
    ParseEmailBody { m with parts := [q, p] } =
      ParseEmailBody { m with parts := [p, q] } := by
  have e1 : ParseEmailBody { m with parts := [p, q] } =
      .ok { PlainText := dp, HTML := dq, To := m.hTo, From := m.hFrom
            Subject := m.hSubject } := by
    rw [ParseEmailBody_multipart { m with parts := [p, q] } h1 h2 h3]
    simp [parseParts, hcp, hbp, hdp, hcq, hbq, hdq, routePart, hmp, hmq1, hmq2, h4]
  have e2 : ParseEmailBody { m with parts := [q, p] } =
      .ok { PlainText := dp, HTML := dq, To := m.hTo, From := m.hFrom
            Subject := m.hSubject } := by
    rw [ParseEmailBody_multipart { m with parts := [q, p] } h1 h2 h3]
    simp [parseParts, hcp, hbp, hdp, hcq, hbq, hdq, routePart, hmp, hmq1, hmq2, h4]
  exact ⟨e1, e2.trans e1.symm⟩

/-- Witness for C8 at a concrete plain+html pair in both orders. -/
theorem C8_order_commutes_witness :
    ParseEmailBody { mkMulti [] with parts := [plainPart "P", htmlPart "H"] } =
      .ok { PlainText := strBytes "P", HTML := strBytes "H", To := "to@x", From := "from@x"
            Subject := "s" } ∧
    ParseEmailBody { mkMulti [] with parts := [htmlPart "H", plainPart "P"] } =
      ParseEmailBody { mkMulti [] with parts := [plainPart "P", htmlPart "H"] } :=
  C8_order_commutes (mkMulti []) (plainPart "P") (htmlPart "H") (strBytes "P") (strBytes "H")
    rfl rfl (by decide) rfl rfl rfl (by decide) (by decide) rfl rfl (by decide) (by decide)
    (by decide)

/-- Claim C10: converse on a session whose threadId is empty fails
immediately, performs no network request and leaves the session
unchanged. -/
theorem C10_uninitialized_guard (a : Assistant) (prompt : String)
    (t : List HTTPOutcome) (h : a.threadID = "") :
    (AddMessageToThread a prompt t).res =
      .error "thread not initialized. Call NewAssistant or ResetThread first" ∧
    (AddMessageToThread a prompt t).a = a ∧
    (AddMessageToThread a prompt t).trace = t := by
  simp [AddMessageToThread, h]

/-- Witness for C10 at a concrete uninitialised session. -/
theorem C10_uninitialized_guard_witness :
    (AddMessageToThread aBlank "hello" [okEmpty]).res =
      .error "thread not initialized. Call NewAssistant or ResetThread first" ∧
    (AddMessageToThread aBlank "hello" [okEmpty]).a = aBlank ∧
    (AddMessageToThread aBlank "hello" [okEmpty]).trace = [okEmpty] :=
  C10_uninitialized_guard aBlank "hello" [okEmpty] rfl

theorem pollFuel_nonterm (a : Assistant) (w : Int) :
    ∀ (f : Nat) (t : List HTTPOutcome),
      (∀ o ∈ t, nonTerminal200 o = true) → f ≤ t.length →
      pollFuel a w f t =
        { reply := "", trace := t.drop f, polls := f
          sleeps := List.replicate f w
          log := logError a [] "Polling for thread reply timed out after maximum retries." } := by
  intro f
  induction f with
  | zero => intro t ht hl; simp [pollFuel]
  | succ f ih =>
    intro t ht hl
    cases t with
    | nil => simp at hl
    | cons o t2 =>
      have ho := ht o (by simp)
      cases o with
      | transportError => simp [nonTerminal200] at ho
      | readBodyError => simp [nonTerminal200] at ho
      | response status body =>
        cases body with
        | invalidJSON raw => simp [nonTerminal200] at ho
        | validJSON j =>
          simp [nonTerminal200] at ho
          obtain ⟨⟨hst, hsf⟩, hsc⟩ := ho
          have ih2 := ih t2 (fun o2 ho2 => ht o2 (by simp [ho2])) (by simpa using hl)
          simp [pollFuel, takeOutcome, hst, hsf, hsc, ih2, List.replicate_succ]

/-- Claim C1 (amended): while the polled status stays non-terminal, the
poll loop issues exactly retries+1 poll requests (its loop bound is
inclusive), waits the configured interval after each of them including the
last, and then gives up with an empty reply and the poll-timeout
diagnostic. -/
theorem C1_poll_exhaustion (a : Assistant) (retries retryWait : Int)
    (t : List HTTPOutcome) (hr : 0 ≤ retries)
    (hl : retries.toNat + 1 ≤ t.length)
    (ht : ∀ o ∈ t, nonTerminal200 o = true) :
    (pollThreadForReply a retries retryWait t).polls = retries.toNat + 1 ∧
    (pollThreadForReply a retries retryWait t).sleeps =
      List.replicate (retries.toNat + 1) retryWait ∧
    (pollThreadForReply a retries retryWait t).reply = "" ∧
    (a.silenceErrors = false →
      (pollThreadForReply a retries retryWait t).log =
        ["Assistant Error: Polling for thread reply timed out after maximum retries."]) := by
  have hf : (retries + 1).toNat = retries.toNat + 1 := by omega
  unfold pollThreadForReply
  rw [hf, pollFuel_nonterm a retryWait (retries.toNat + 1) t ht hl]
  refine ⟨rfl, rfl, rfl, fun hs => ?_⟩
  simp [logError, hs]

/-- Witness for the amended C1 at retries = 1 with an in_progress
status. -/
theorem C1_poll_exhaustion_witness :
    (pollThreadForReply aLoud 1 2 (List.replicate 2 (okStatus "in_progress"))).polls =
      (1 : Int).toNat + 1 ∧
    (pollThreadForReply aLoud 1 2 (List.replicate 2 (okStatus "in_progress"))).sleeps =
      List.replicate ((1 : Int).toNat + 1) 2 ∧
    (pollThreadForReply aLoud 1 2 (List.replicate 2 (okStatus "in_progress"))).reply = "" ∧
    (aLoud.silenceErrors = false →
      (pollThreadForReply aLoud 1 2 (List.replicate 2 (okStatus "in_progress"))).log =
        ["Assistant Error: Polling for thread reply timed out after maximum retries."]) :=
  C1_poll_exhaustion aLoud 1 2 (List.replicate 2 (okStatus "in_progress"))
    (by decide) (by decide) (by decide)

/-- Counterexample for C1 as stated: with the configured maximum number of
poll attempts equal to 3 and a status that stays in_progress, the loop
performs 4 polls, not 3. -/
theorem C1_counterexample :
    (pollThreadForReply aLoud 3 4 (List.replicate 6 (okStatus "in_progress"))).polls ≠ 3 ∧
    (pollThreadForReply aLoud 3 4 (List.replicate 6 (okStatus "in_progress"))).polls = 4 := by
  constructor <;> decide

/-- Claim C3 (amended): a failed run status stops polling immediately (one
poll request, nothing further consumed, no wait) and fails the attempt;
the run failure is identified in the diagnostic log, while `converse`
surfaces the same generic poll error for a failed run as for a timeout. -/
theorem C3_failed_stops_polling (a : Assistant) (retries retryWait : Int)
    (j : JSONBody) (t : List HTTPOutcome) (hr : 0 ≤ retries)
    (hs : j.status = "failed") :
    (pollThreadForReply a retries retryWait (.response 200 (.validJSON j) :: t)).reply = "" ∧
    (pollThreadForReply a retries retryWait (.response 200 (.validJSON j) :: t)).polls = 1 ∧
    (pollThreadForReply a retries retryWait (.response 200 (.validJSON j) :: t)).trace = t ∧
    (pollThreadForReply a retries retryWait (.response 200 (.validJSON j) :: t)).sleeps = [] ∧
    (a.silenceErrors = false →
      (pollThreadForReply a retries retryWait (.response 200 (.validJSON j) :: t)).log =
        ["Assistant Error: OpenAI run failed with status: failed"]) := by
  have hf : (retries + 1).toNat = retries.toNat + 1 := by omega
  unfold pollThreadForReply
  rw [hf]
  simp [pollFuel, takeOutcome, hs, logError]

/-- Witness for the amended C3 at a concrete failed first poll. -/
theorem C3_failed_stops_polling_witness :
    (pollThreadForReply aLoud 10 1 (.response 200 (.validJSON (jStatus "failed")) :: [])).reply = "" ∧
    (pollThreadForReply aLoud 10 1 (.response 200 (.validJSON (jStatus "failed")) :: [])).polls = 1 ∧
    (pollThreadForReply aLoud 10 1 (.response 200 (.validJSON (jStatus "failed")) :: [])).trace = [] ∧
    (pollThreadForReply aLoud 10 1 (.response 200 (.validJSON (jStatus "failed")) :: [])).sleeps = [] ∧
    (aLoud.silenceErrors = false →
      (pollThreadForReply aLoud 10 1 (.response 200 (.validJSON (jStatus "failed")) :: [])).log =
        ["Assistant Error: OpenAI run failed with status: failed"]) :=
  C3_failed_stops_polling aLoud 10 1 (jStatus "failed") [] (by decide) rfl

/-- Counterexample for C3 as stated: after a failed run status `converse`
surfaces exactly the same error value as after a poll timeout, so the
caller cannot tell a failed run from a timeout. -/
theorem C3_counterexample :
    (AddMessageToThread aLoud "hi" [okEmpty, okRun, okStatus "failed"]).res =
      (AddMessageToThread aLoud "hi"
        (okEmpty :: okRun :: List.replicate 12 (okStatus "in_progress"))).res ∧
    (AddMessageToThread aLoud "hi" [okEmpty, okRun, okStatus "failed"]).res =
      Except.error "failed to get reply from thread after polling" := by
  constructor <;> decide

/-- Claim C4 (amended): thread initialization fails (and leaves the
session unchanged, so an empty threadId stays empty) on a transport
error, an unreadable or undecodable body, or any status other than
exactly 200 — including other 2xx statuses; a 200 response that decodes
succeeds and stores the returned thread id.  NewAssistant propagates the
failure as an error and the success as a session holding that id. -/
theorem C4_init_thread (a : Assistant) (o : HTTPOutcome) (t : List HTTPOutcome)
    (k aid : String) :
    (initialiseThread a (o :: t)).trace = t ∧
    (decodesOK o = false →
      (initialiseThread a (o :: t)).err.isSome = true ∧
      (initialiseThread a (o :: t)).a = a ∧
      ∃ e, (NewAssistant k aid 0 "" (o :: t)).res = .error e) ∧
    (∀ j, o = .response 200 (.validJSON j) →
      (initialiseThread a (o :: t)).err = none ∧
      (initialiseThread a (o :: t)).a.threadID = j.id ∧
      ∃ a2, (NewAssistant k aid 0 "" (o :: t)).res = .ok a2 ∧ a2.threadID = j.id) := by
  cases o with
  | transportError =>
    refine ⟨rfl, fun _ => ⟨rfl, rfl, ?_⟩, fun j hj => by cases hj⟩
    exact ⟨"failed to initialize thread: " ++ "error sending request", by
      simp [NewAssistant, initialiseThread, takeOutcome, RecallThreadID, SilenceErrors]⟩
  | readBodyError =>
    refine ⟨rfl, fun _ => ⟨rfl, rfl, ?_⟩, fun j hj => by cases hj⟩
    exact ⟨"failed to initialize thread: " ++ "failed to read response body", by
      simp [NewAssistant, initialiseThread, takeOutcome, RecallThreadID, SilenceErrors]⟩
  | response status body =>
    by_cases hst : status = 200
    · subst hst
      cases body with
      | invalidJSON raw =>
        refine ⟨rfl, fun _ => ⟨?_, ?_, ?_⟩, fun j hj => by cases hj⟩
        · simp [initialiseThread, takeOutcome]
        · simp [initialiseThread, takeOutcome]
        · exact ⟨"failed to initialize thread: " ++ "failed to unmarshal thread response", by
            simp [NewAssistant, initialiseThread, takeOutcome, RecallThreadID, SilenceErrors]⟩
      | validJSON j =>
        refine ⟨rfl, fun hdec => by simp [decodesOK] at hdec, fun j2 hj => ?_⟩
        cases hj
        refine ⟨by simp [initialiseThread, takeOutcome],
          by simp [initialiseThread, takeOutcome], ?_⟩
        refine ⟨{ silenceErrors := false, runID := "", openAIKey := k, assistantID := aid
                  threadID := j.id }, ?_, rfl⟩
        simp [NewAssistant, initialiseThread, takeOutcome, RecallThreadID, SilenceErrors]
    · cases body with
      | invalidJSON raw =>
        refine ⟨by simp [initialiseThread, takeOutcome, hst],
          fun _ => ⟨?_, ?_, ?_⟩, fun j hj => by cases hj⟩
        · simp [initialiseThread, takeOutcome, hst]
        · simp [initialiseThread, takeOutcome, hst]
        · exact ⟨"failed to initialize thread: " ++
              ("thread initialization failed with status: " ++ raw), by
            simp [NewAssistant, initialiseThread, takeOutcome, RecallThreadID, SilenceErrors, hst]⟩
      | validJSON j =>
        refine ⟨by simp [initialiseThread, takeOutcome, hst],
          fun _ => ⟨?_, ?_, ?_⟩, fun j2 hj => by cases hj; exact absurd rfl hst⟩
        · simp [initialiseThread, takeOutcome, hst]
        · simp [initialiseThread, takeOutcome, hst]
        · exact ⟨"failed to initialize thread: " ++
              ("thread could not be initialised: " ++ j.errMessage), by
            simp [NewAssistant, initialiseThread, takeOutcome, RecallThreadID, SilenceErrors, hst]⟩

/-- Witness for the amended C4 at a concrete transport error and a
concrete successful 200 creation. -/
theorem C4_init_thread_witness :
    (initialiseThread aBlank [HTTPOutcome.transportError]).err.isSome = true ∧
    (initialiseThread aBlank [HTTPOutcome.transportError]).a = aBlank ∧
    (initialiseThread aBlank
      [HTTPOutcome.response 200 (.validJSON { id := "t_123", status := "", errMessage := "", data := [], raw := "" })]).err = none ∧
    (initialiseThread aBlank
      [HTTPOutcome.response 200 (.validJSON { id := "t_123", status := "", errMessage := "", data := [], raw := "" })]).a.threadID = "t_123" := by
  refine ⟨?_, ?_, ?_, ?_⟩
  · exact ((C4_init_thread aBlank HTTPOutcome.transportError [] "k" "as").2.1 (by decide)).1
  · exact ((C4_init_thread aBlank HTTPOutcome.transportError [] "k" "as").2.1 (by decide)).2.1
  · exact ((C4_init_thread aBlank
      (HTTPOutcome.response 200 (.validJSON { id := "t_123", status := "", errMessage := "", data := [], raw := "" }))
      [] "k" "as").2.2 _ rfl).1
  · exact ((C4_init_thread aBlank
      (HTTPOutcome.response 200 (.validJSON { id := "t_123", status := "", errMessage := "", data := [], raw := "" }))
      [] "k" "as").2.2 _ rfl).2.1

/-- Counterexample for C4 as stated: a 201 response (a 2xx status) whose
body decodes is still rejected, and the thread id is not stored. -/
theorem C4_counterexample :
    (initialiseThread aBlank
      [HTTPOutcome.response 201 (.validJSON { id := "t_123", status := "", errMessage := "", data := [], raw := "" })]).err.isSome = true ∧
    (initialiseThread aBlank
      [HTTPOutcome.response 201 (.validJSON { id := "t_123", status := "", errMessage := "", data := [], raw := "" })]).a.threadID = "" := by
  constructor <;> decide

/-- Claim C2 (amended): on a 200 list-messages response that decodes, the
fetch returns the first content block's text of the first message exactly
when the list is nonempty, that message has content blocks, and its FIRST
content block is text-typed; otherwise — including when a later block is
text-typed — it fails with an empty reply and the no-reply diagnostic. -/
theorem C2_get_last_message (a : Assistant) (j : JSONBody) (t : List HTTPOutcome) :
    (GetLastMessage a (.response 200 (.validJSON j) :: t)).trace = t ∧
    (j.data = [] →
      (GetLastMessage a (.response 200 (.validJSON j) :: t)).reply = "" ∧
      (a.silenceErrors = false →
        (GetLastMessage a (.response 200 (.validJSON j) :: t)).log =
          ["Assistant Error: No text content found in the last message or message structure is unexpected."])) ∧
    (∀ m ms, j.data = m :: ms →
      (m.content = [] →
        (GetLastMessage a (.response 200 (.validJSON j) :: t)).reply = "" ∧
        (a.silenceErrors = false →
          (GetLastMessage a (.response 200 (.validJSON j) :: t)).log =
            ["Assistant Error: No text content found in the last message or message structure is unexpected."])) ∧
      (∀ c cs, m.content = c :: cs →
        (c.type = "text" →
          (GetLastMessage a (.response 200 (.validJSON j) :: t)).reply = c.text.value ∧
          (GetLastMessage a (.response 200 (.validJSON j) :: t)).log = []) ∧
        (c.type ≠ "text" →
          (GetLastMessage a (.response 200 (.validJSON j) :: t)).reply = "" ∧
          (a.silenceErrors = false →
            (GetLastMessage a (.response 200 (.validJSON j) :: t)).log =
              ["Assistant Error: No text content found in the last message or message structure is unexpected."])))) := by
  rcases hd : j.data with _ | ⟨m, ms⟩
  · refine ⟨?_, fun _ => ⟨?_, fun hs => ?_⟩, fun m ms hm => by simp at hm⟩
    · simp [GetLastMessage, takeOutcome, hd]
    · simp [GetLastMessage, takeOutcome, hd]
    · simp [GetLastMessage, takeOutcome, hd, logError, hs]
  · refine ⟨?_, fun he => by simp at he, fun m2 ms2 hm => ?_⟩
    · rcases hc : m.content with _ | ⟨c, cs⟩
      · simp [GetLastMessage, takeOutcome, hd, hc]
      · by_cases htype : c.type = "text" <;>
          simp [GetLastMessage, takeOutcome, hd, hc, htype]
    · injection hm with h1 h2
      subst h1
      subst h2
      refine ⟨fun hc => ?_, fun c cs hc => ⟨fun htype => ?_, fun htype => ?_⟩⟩
      · constructor
        · simp [GetLastMessage, takeOutcome, hd, hc]
        · intro hs
          simp [GetLastMessage, takeOutcome, hd, hc, logError, hs]
      · constructor
        · simp [GetLastMessage, takeOutcome, hd, hc, htype]
        · simp [GetLastMessage, takeOutcome, hd, hc, htype]
      · constructor
        · simp [GetLastMessage, takeOutcome, hd, hc, htype]
        · intro hs
          simp [GetLastMessage, takeOutcome, hd, hc, htype, logError, hs]

/-- Witness for the amended C2: a seeded text reply is returned silently,
and an empty message list yields an empty reply. -/
theorem C2_get_last_message_witness :
    (GetLastMessage aLoud [okMsgs "ok"]).reply = "ok" ∧
    (GetLastMessage aLoud [okMsgs "ok"]).log = [] ∧
    (GetLastMessage aLoud [okEmpty]).reply = "" := by
  have h1 := (((C2_get_last_message aLoud
      { id := "", status := "", errMessage := "", data := [replyMsg "ok"], raw := "" }
      []).2.2 (replyMsg "ok") [] rfl).2
      { type := "text", text := { value := "ok" } } [] rfl).1 rfl
  have h2 := (C2_get_last_message aLoud
      { id := "", status := "", errMessage := "", data := [], raw := "" } []).2.1 rfl
  exact ⟨h1.1, h1.2, h2.1⟩

/-- Counterexample for C2 as stated: the first message's first content
block is not text-typed but a later one is, yet the fetch fails with an
empty reply instead of returning that text. -/
theorem C2_counterexample :
    (GetLastMessage aLoud [okMsgsMixed]).reply = "" ∧
    ([{ type := "image_file", text := { value := "" } },
      { type := "text", text := { value := "hi" } }] : List MsgContent).any
        (fun c => c.type == "text") = true := by
  constructor <;> decide

theorem withSilence_eq_self (a : Assistant) (b : Bool) (h : a.silenceErrors = b) :
    withSilence a b = a := by
  cases a
  simp only at h
  simp [withSilence, h]

theorem GetLastMessage_flag (a : Assistant) (b1 b2 : Bool) (t : List HTTPOutcome) :
    (GetLastMessage (withSilence a b1) t).reply = (GetLastMessage (withSilence a b2) t).reply ∧
    (GetLastMessage (withSilence a b1) t).trace = (GetLastMessage (withSilence a b2) t).trace := by
  rcases ht : takeOutcome t with ⟨o, t2⟩
  cases o with
  | transportError => simp [GetLastMessage, ht]
  | readBodyError => simp [GetLastMessage, ht]
  | response status body =>
    by_cases hst : status = 200
    · subst hst
      cases body with
      | invalidJSON raw => simp [GetLastMessage, ht]
      | validJSON j =>
        rcases hd : j.data with _ | ⟨m, ms⟩
        · simp [GetLastMessage, ht, hd]
        · rcases hc : m.content with _ | ⟨c, cs⟩
          · simp [GetLastMessage, ht, hd, hc]
          · by_cases htype : c.type = "text" <;>
              simp [GetLastMessage, ht, hd, hc, htype]
    · cases body <;> simp [GetLastMessage, ht, hst]

theorem GetLastMessage_silent (a : Assistant) (t : List HTTPOutcome)
    (hs : a.silenceErrors = false)
    (hlog : (GetLastMessage a t).log = []) :
    ∃ j m ms c cs, (takeOutcome t).1 = .response 200 (.validJSON j) ∧
      j.data = m :: ms ∧ m.content = c :: cs ∧ c.type = "text" ∧
      (GetLastMessage a t).reply = c.text.value := by
  rcases ht : takeOutcome t with ⟨o, t2⟩
  cases o with
  | transportError => simp [GetLastMessage, ht, logError, hs] at hlog
  | readBodyError => simp [GetLastMessage, ht, logError, hs] at hlog
  | response status body =>
    by_cases hst : status = 200
    · subst hst
      cases body with
      | invalidJSON raw => simp [GetLastMessage, ht, logError, hs] at hlog
      | validJSON j =>
        rcases hd : j.data with _ | ⟨m, ms⟩
        · simp [GetLastMessage, ht, hd, logError, hs] at hlog
        · rcases hc : m.content with _ | ⟨c, cs⟩
          · simp [GetLastMessage, ht, hd, hc, logError, hs] at hlog
          · by_cases htype : c.type = "text"
            · exact ⟨j, m, ms, c, cs, by simp [ht], hd, hc, htype,
                by simp [GetLastMessage, ht, hd, hc, htype]⟩
            · simp [GetLastMessage, ht, hd, hc, htype, logError, hs] at hlog
    · cases body <;> simp [GetLastMessage, ht, hst, logError, hs] at hlog

theorem runThread_flag (a : Assistant) (b1 b2 : Bool) (t : List HTTPOutcome) :
    (runThread (withSilence a b1) t).ok = (runThread (withSilence a b2) t).ok ∧
    (runThread (withSilence a b1) t).trace = (runThread (withSilence a b2) t).trace ∧
    (runThread (withSilence a b1) t).a = withSilence (runThread (withSilence a b2) t).a b1 := by
  rcases ht : takeOutcome t with ⟨o, t2⟩
  cases o with
  | transportError => simp [runThread, ht, withSilence]
  | readBodyError => simp [runThread, ht, withSilence]
  | response status body =>
    by_cases hst : status = 200
    · subst hst
      cases body with
      | invalidJSON raw => simp [runThread, ht, withSilence]
      | validJSON j => simp [runThread, ht, withSilence]
    · cases body <;> simp [runThread, ht, hst, withSilence]

theorem runThread_silent (a : Assistant) (t : List HTTPOutcome)
    (hs : a.silenceErrors = false)
    (hlog : (runThread a t).log = []) : (runThread a t).ok = true := by
  rcases ht : takeOutcome t with ⟨o, t2⟩
  cases o with
  | transportError => simp [runThread, ht, logError, hs] at hlog
  | readBodyError => simp [runThread, ht, logError, hs] at hlog
  | response status body =>
    by_cases hst : status = 200
    · subst hst
      cases body with
      | invalidJSON raw => simp [runThread, ht, logError, hs] at hlog
      | validJSON j => simp [runThread, ht]
    · cases body <;> simp [runThread, ht, hst, logError, hs] at hlog

theorem initialiseThread_flag (a : Assistant) (b1 b2 : Bool) (t : List HTTPOutcome) :
    (initialiseThread (withSilence a b1) t).err = (initialiseThread (withSilence a b2) t).err ∧
    (initialiseThread (withSilence a b1) t).trace = (initialiseThread (withSilence a b2) t).trace ∧
    (initialiseThread (withSilence a b1) t).a =
      withSilence (initialiseThread (withSilence a b2) t).a b1 := by
  rcases ht : takeOutcome t with ⟨o, t2⟩
  cases o with
  | transportError => simp [initialiseThread, ht, withSilence]
  | readBodyError => simp [initialiseThread, ht, withSilence]
  | response status body =>
    by_cases hst : status = 200
    · subst hst
      cases body with
      | invalidJSON raw => simp [initialiseThread, ht, withSilence]
      | validJSON j => simp [initialiseThread, ht, withSilence]
    · cases body <;> simp [initialiseThread, ht, hst, withSilence]

theorem initialiseThread_silent (a : Assistant) (t : List HTTPOutcome)
    (hs : a.silenceErrors = false)
    (hlog : (initialiseThread a t).log = []) : (initialiseThread a t).err = none := by
  rcases ht : takeOutcome t with ⟨o, t2⟩
  cases o with
  | transportError => simp [initialiseThread, ht, logError, hs] at hlog
  | readBodyError => simp [initialiseThread, ht, logError, hs] at hlog
  | response status body =>
    by_cases hst : status = 200
    · subst hst
      cases body with
      | invalidJSON raw => simp [initialiseThread, ht, logError, hs] at hlog
      | validJSON j => simp [initialiseThread, ht]
    · cases body <;> simp [initialiseThread, ht, hst, logError, hs] at hlog

theorem runThread_silenceErrors (a : Assistant) (t : List HTTPOutcome) :
    (runThread a t).a.silenceErrors = a.silenceErrors := by
  rcases ht : takeOutcome t with ⟨o, t2⟩
  cases o with
  | transportError => simp [runThread, ht]
  | readBodyError => simp [runThread, ht]
  | response status body =>
    by_cases hst : status = 200
    · subst hst
      cases body with
      | invalidJSON raw => simp [runThread, ht]
      | validJSON j => simp [runThread, ht]
    · cases body <;> simp [runThread, ht, hst]

theorem pollFuel_flag (a : Assistant) (b1 b2 : Bool) (w : Int) :
    ∀ (f : Nat) (t : List HTTPOutcome),
      (pollFuel (withSilence a b1) w f t).reply = (pollFuel (withSilence a b2) w f t).reply ∧
      (pollFuel (withSilence a b1) w f t).trace = (pollFuel (withSilence a b2) w f t).trace ∧
      (pollFuel (withSilence a b1) w f t).polls = (pollFuel (withSilence a b2) w f t).polls ∧
      (pollFuel (withSilence a b1) w f t).sleeps = (pollFuel (withSilence a b2) w f t).sleeps := by
  intro f
  induction f with
  | zero => intro t; simp [pollFuel]
  | succ f ih =>
    intro t
    rcases ht : takeOutcome t with ⟨o, t2⟩
    obtain ⟨ih1, ih2, ih3, ih4⟩ := ih t2
    cases o with
    | transportError => simp [pollFuel, ht, ih1, ih2, ih3, ih4]
    | readBodyError => simp [pollFuel, ht, ih1, ih2, ih3, ih4]
    | response status body =>
      by_cases hst : status = 200
      · subst hst
        cases body with
        | invalidJSON raw => simp [pollFuel, ht, ih1, ih2, ih3, ih4]
        | validJSON j =>
          by_cases hsf : j.status = "failed"
          · simp [pollFuel, ht, hsf]
          · by_cases hsc : j.status = "completed"
            · obtain ⟨g1, g2⟩ := GetLastMessage_flag a b1 b2 t2
              simp [pollFuel, ht, hsf, hsc, g1, g2]
            · simp [pollFuel, ht, hsf, hsc, ih1, ih2, ih3, ih4]
      · cases body <;> simp [pollFuel, ht, hst, ih1, ih2, ih3, ih4]

theorem withSilence_threadID (a : Assistant) (b : Bool) :
    (withSilence a b).threadID = a.threadID := rfl

theorem AddMessageToThread_flag (a : Assistant) (b1 b2 : Bool) (prompt : String)
    (t : List HTTPOutcome) :
    (AddMessageToThread (withSilence a b1) prompt t).res =
      (AddMessageToThread (withSilence a b2) prompt t).res ∧
    (AddMessageToThread (withSilence a b1) prompt t).trace =
      (AddMessageToThread (withSilence a b2) prompt t).trace := by
  by_cases hth : a.threadID = ""
  · simp [AddMessageToThread, withSilence, hth]
  · rcases ht : takeOutcome t with ⟨o, t2⟩
    cases o with
    | transportError => simp [AddMessageToThread, withSilence, hth, ht]
    | readBodyError => simp [AddMessageToThread, withSilence, hth, ht]
    | response status body =>
      by_cases hst : status = 200
      · subst hst
        obtain ⟨r1, r2, r3⟩ := runThread_flag a b1 b2 t2
        have hrs : (runThread (withSilence a b2) t2).a.silenceErrors = b2 := by
          rw [runThread_silenceErrors]
          simp [withSilence]
        have hb2 : withSilence (runThread (withSilence a b2) t2).a b2 =
            (runThread (withSilence a b2) t2).a := withSilence_eq_self _ _ hrs
        obtain ⟨p1, p2, _, _⟩ :=
          pollFuel_flag (runThread (withSilence a b2) t2).a b1 b2 1 11
            ((runThread (withSilence a b2) t2).trace)
        rw [hb2] at p1 p2
        cases hok : (runThread (withSilence a b2) t2).ok with
        | false =>
          cases body <;>
            simp [AddMessageToThread, withSilence_threadID, hth, ht, r1, r2, hok]
        | true =>
          cases body <;>
            simp [AddMessageToThread, pollThreadForReply, withSilence_threadID, hth, ht,
              r1, r2, r3, hok, p1, p2] <;>
            exact ⟨by split <;> rfl, by split <;> rfl⟩
      · cases body <;> simp [AddMessageToThread, withSilence, hth, ht, hst]

/-- Claim C9 (amended): for every operation and every fixed response
trace, the value or error surfaced to the caller (and the trace consumed)
is identical whether silenceErrors is set or not — the flag only affects
the log lines; with the flag unset, the thread-initialization, run-start
and reply-fetch steps are silent exactly on their success branches (every
failing branch logs a diagnostic); converse's uninitialized-thread guard,
however, fails without emitting any diagnostic. -/
theorem C9_silence_flag (a : Assistant) (b1 b2 : Bool) (prompt : String)
    (t : List HTTPOutcome) :
    ((AddMessageToThread (withSilence a b1) prompt t).res =
       (AddMessageToThread (withSilence a b2) prompt t).res ∧
     (AddMessageToThread (withSilence a b1) prompt t).trace =
       (AddMessageToThread (withSilence a b2) prompt t).trace) ∧
    ((initialiseThread (withSilence a b1) t).err =
       (initialiseThread (withSilence a b2) t).err ∧
     (initialiseThread (withSilence a b1) t).trace =
       (initialiseThread (withSilence a b2) t).trace) ∧
    ((GetLastMessage (withSilence a b1) t).reply =
       (GetLastMessage (withSilence a b2) t).reply ∧
     (GetLastMessage (withSilence a b1) t).trace =
       (GetLastMessage (withSilence a b2) t).trace) ∧
    (a.silenceErrors = false →
      ((initialiseThread a t).log = [] → (initialiseThread a t).err = none) ∧
      ((runThread a t).log = [] → (runThread a t).ok = true) ∧
      ((GetLastMessage a t).log = [] →
        ∃ j m ms c cs, (takeOutcome t).1 = .response 200 (.validJSON j) ∧
          j.data = m :: ms ∧ m.content = c :: cs ∧ c.type = "text" ∧
          (GetLastMessage a t).reply = c.text.value)) := by
  refine ⟨AddMessageToThread_flag a b1 b2 prompt t,
    ⟨(initialiseThread_flag a b1 b2 t).1, (initialiseThread_flag a b1 b2 t).2.1⟩,
    GetLastMessage_flag a b1 b2 t, fun hs => ?_⟩
  exact ⟨initialiseThread_silent a t hs, runThread_silent a t hs,
    GetLastMessage_silent a t hs⟩

/-- Witness for the amended C9: the surfaced error is flag-independent on
a concrete transport failure, and concrete silent runs of the three steps
are successful runs. -/
theorem C9_silence_flag_witness :
    (AddMessageToThread (withSilence aLoud true) "p" [HTTPOutcome.transportError]).res =
      (AddMessageToThread (withSilence aLoud false) "p" [HTTPOutcome.transportError]).res ∧
    (initialiseThread aLoud [okEmpty]).err = none ∧
    (runThread aLoud [okRun]).ok = true := by
  refine ⟨(C9_silence_flag aLoud true false "p" [HTTPOutcome.transportError]).1.1, ?_, ?_⟩
  · exact ((C9_silence_flag aLoud true false "p" [okEmpty]).2.2.2 rfl).1 (by decide)
  · exact ((C9_silence_flag aLoud true false "p" [okRun]).2.2.2 rfl).2.1 (by decide)

/-- Counterexample for C9 as stated: converse on an uninitialized session
with logging enabled surfaces an error while emitting no diagnostic at
all, so not every failure path logs. -/
theorem C9_counterexample :
    aBlank.silenceErrors = false ∧
    (AddMessageToThread aBlank "hi" []).res =
      Except.error "thread not initialized. Call NewAssistant or ResetThread first" ∧
    (AddMessageToThread aBlank "hi" []).log = [] := by
  refine ⟨rfl, ?_, ?_⟩ <;> decide
